import Mathlib

/-!
Shallow embedding of the `cosmic-applet-bluetooth` coordinator
(`src/worker.rs`, `src/agent.rs`, `src/device.rs`, `src/app.rs`).

The platform service (bluer), the tokio runtime and the filesystem are
abstracted as explicit oracle inputs (`Platform`); every handler of the
worker is translated into a pure function from state and oracle answers to
a new state plus an explicit effect record (emitted events, aborted task
handles, spawned tasks, fulfilled or dropped oneshot acceptors).
HashMaps are modelled as association lists with one entry per key.
-/

namespace CosmicBluetooth

abbrev Address := Nat
abbrev HandleId := Nat
abbrev AcceptorId := Nat
abbrev StreamId := Nat

/-- `ConnectionStatus` from device.rs. -/
inductive ConnectionStatus where
  | connected
  | connecting
  | disconnected
  | disconnecting
deriving DecidableEq, Repr

/-- `BluetoothDevice` from device.rs (battery as Nat for u8). -/
structure BluetoothDevice where
  icon : String
  name : String
  status : ConnectionStatus
  battery_percent : Option Nat
  is_paired : Bool
  address : Address
  display_code : Option String
deriving DecidableEq, Repr

/-- `DeviceUpdate` from device.rs. -/
inductive DeviceUpdate where
  | connected (b : Bool)
  | battery (n : Nat)
  | paired (b : Bool)
deriving DecidableEq, Repr

/-- `BluetoothDevice::handle_device_updates` from device.rs. -/
def handle_device_updates (d : BluetoothDevice) (u : DeviceUpdate) : BluetoothDevice :=
  match u with
  | .battery b => { d with battery_percent := some b }
  | .paired p => { d with is_paired := p }
  | .connected c =>
      { d with status := if c then ConnectionStatus.connected else ConnectionStatus.disconnected }

/-- `WorkerEvent` from worker.rs; the `Ready` channel handle is dropped,
only the powered flag is kept. -/
inductive WorkerEvent where
  | ready (powered : Bool)
  | deviceMap (m : List (Address × BluetoothDevice))
  | deviceAdded (d : BluetoothDevice)
  | deviceRemoved (addr : Address)
  | connectFailed (addr : Address)
  | deviceUpdate (addr : Address) (u : DeviceUpdate)
  | enabled (b : Bool)
  | error (msg : String)
  | confirmCode (code : String) (addr : Address)
deriving DecidableEq, Repr

/-- `WorkerRequest` from worker.rs. -/
inductive WorkerRequest where
  | setDiscovery (b : Bool)
  | connectDevice (addr : Address)
  | disconnectDevice (addr : Address)
  | cancelConnect (addr : Address)
  | setEnabled (b : Bool)
  | confirmCode (addr : Address) (accept : Bool)
deriving DecidableEq, Repr

/-- `bluer::AdapterEvent`, restricted to the variants the handler matches. -/
inductive AdapterEvent where
  | propertyPowered (v : Bool)
  | deviceRemoved (addr : Address)
  | deviceAdded (addr : Address)
  | otherEvent
deriving DecidableEq, Repr

/-- `AgentEvent` from agent.rs; the oneshot sender is a plain id. -/
inductive AgentEvent where
  | requestConfirmation (passkey : Nat) (addr : Address) (acceptor : AcceptorId)
deriving DecidableEq, Repr

/-- Association-list lookup, modelling `HashMap::get`. -/
def alistLookup {α : Type} (l : List (Address × α)) (a : Address) : Option α :=
  (l.find? (fun p => p.1 == a)).map (fun p => p.2)

/-- Association-list removal, modelling `HashMap::remove`. -/
def alistRemove {α : Type} (l : List (Address × α)) (a : Address) : List (Address × α) :=
  l.filter (fun p => p.1 != a)

/-- Association-list insertion, modelling `HashMap::insert` (replaces any
previous binding of the key). -/
def alistInsert {α : Type} (l : List (Address × α)) (a : Address) (v : α) :
    List (Address × α) :=
  (a, v) :: alistRemove l a

/-- Mutable state of `BluetoothWorker` (worker.rs): the optional discovery
stream, the per-device listener handles and the pending confirmation
senders.  Channels and the adapter handle live in the oracle. -/
structure BluetoothWorker where
  discovery_events : Option StreamId
  device_handles : List (Address × HandleId)
  confirmation_senders : List (Address × AcceptorId)
deriving DecidableEq, Repr

/-- One entry of `/sys/class/rfkill`: the (trimmed) contents of its `type`
and `name` files when readable, and the parsed `index` when readable and
numeric. -/
structure RfkillEntry where
  typContent : Option String
  nameContent : Option String
  indexRead : Option Nat
deriving DecidableEq, Repr

/-- Oracle answers for everything the handlers await from the platform. -/
structure Platform where
  deviceAddresses : List Address
  deviceName : Address → Option String
  deviceRecord : Address → BluetoothDevice
  freshHandle : HandleId
  freshStream : StreamId
  isPowered : Bool
  setPoweredOk : Bool
  rfkillEntries : List RfkillEntry
  adapterName : String
  rfkillWriteOk : Bool
  enumDeviceMap : List (Address × BluetoothDevice)
  enumHandles : List (Address × HandleId)

/-- Result of one handler call: the new worker state plus every side
effect the Rust handler performs. -/
structure StepOut where
  state : BluetoothWorker
  events : List WorkerEvent
  aborted : List HandleId
  spawnedListeners : List (Address × HandleId)
  spawnedConnect : List Address
  spawnedDisconnect : List Address
  spawnedCancel : List Address
  fulfilled : List (AcceptorId × Bool)
  droppedAcceptors : List AcceptorId
  err : Option String
deriving DecidableEq, Repr

/-- A step that changes the state and performs nothing else. -/
def noEffects (s : BluetoothWorker) : StepOut :=
  { state := s, events := [], aborted := [], spawnedListeners := [],
    spawnedConnect := [], spawnedDisconnect := [], spawnedCancel := [],
    fulfilled := [], droppedAcceptors := [], err := none }

/-- `BluetoothWorker::handle_adapter_event` (worker.rs lines 113-154). -/
def handle_adapter_event (p : Platform) (s : BluetoothWorker) (e : AdapterEvent) : StepOut :=
  match e with
  | .propertyPowered v => { noEffects s with events := [.enabled v] }
  | .deviceRemoved addr =>
      if p.deviceAddresses.contains addr then
        noEffects s
      else
        match alistLookup s.device_handles addr with
        | some h =>
            { noEffects { s with device_handles := alistRemove s.device_handles addr } with
              events := [.deviceRemoved addr], aborted := [h] }
        | none => noEffects s
  | .deviceAdded addr =>
      if (p.deviceName addr).isNone || (alistLookup s.device_handles addr).isSome then
        noEffects s
      else
        { noEffects
            { s with device_handles := alistInsert s.device_handles addr p.freshHandle } with
          events := [.deviceAdded (p.deviceRecord addr)],
          spawnedListeners := [(addr, p.freshHandle)] }
  | .otherEvent => noEffects s

/-- `BluetoothWorker::handle_agent_event` (worker.rs lines 156-166):
`HashMap::insert` replaces any previous sender for the address; the
displaced sender is dropped. -/
def handle_agent_event (s : BluetoothWorker) (e : AgentEvent) : StepOut :=
  match e with
  | .requestConfirmation passkey addr acceptor =>
      { noEffects
          { s with confirmation_senders := alistInsert s.confirmation_senders addr acceptor } with
        events := [.confirmCode (toString passkey) addr],
        droppedAcceptors :=
          match alistLookup s.confirmation_senders addr with
          | some old => [old]
          | none => [] }

/-- `find_adapter_idx` (worker.rs lines 333-360): scan the rfkill entries
in order; skip entries whose type is unreadable or not "bluetooth"; on the
first entry whose name matches, return its parsed index (propagating a
read/parse failure); if no entry matches, fail with the descriptive
message. -/
def find_adapter_idx (entries : List RfkillEntry) (adapter_name : String) :
    Except String Nat :=
  match entries with
  | [] => .error ("No rfkill bluetooth device with name " ++ adapter_name)
  | e :: rest =>
      let is_bluetooth := (e.typContent.map (fun t => t == "bluetooth")).getD false
      if !is_bluetooth then
        find_adapter_idx rest adapter_name
      else
        let name_match := (e.nameContent.map (fun t => t == adapter_name)).getD false
        if name_match then
          match e.indexRead with
          | some idx => .ok idx
          | none => .error "failed to read or parse rfkill index"
        else
          find_adapter_idx rest adapter_name

/-- Little-endian byte split of a 32-bit value (`u32` fields are stored in
host order; the targets of this repository are little-endian). -/
def u32le (n : Nat) : List Nat :=
  [n % 256, n / 2 ^ 8 % 256, n / 2 ^ 16 % 256, n / 2 ^ 24 % 256]

/-- The byte image of `RfkillEvent` (worker.rs lines 41-48, 368-376):
`repr(C, packed)` gives the fields in declaration order with no padding:
idx (4 bytes), _type = 2, op = 2, soft = 0 to enable / 1 to disable,
hard = 0. -/
def rfkillEventBytes (idx : Nat) (enable : Bool) : List Nat :=
  u32le idx ++ [2, 2, if enable then 0 else 1, 0]

/-- `rfkill_set_enabled` (worker.rs lines 362-380): open `/dev/rfkill`
and write the 8-byte record; the oracle says whether the open/write
succeeds.  Returns the bytes written. -/
def rfkill_set_enabled (writeOk : Bool) (idx : Nat) (enable : Bool) :
    Except String (List Nat) :=
  if writeOk then .ok (rfkillEventBytes idx enable) else .error "could not write to /dev/rfkill"

/-- `BluetoothWorker::handle_request` (worker.rs lines 168-239). -/
def handle_request (p : Platform) (s : BluetoothWorker) (r : WorkerRequest) : StepOut :=
  match r with
  | .setDiscovery v =>
      if v && p.isPowered then
        noEffects { s with discovery_events := some p.freshStream }
      else
        noEffects { s with discovery_events := none }
  | .connectDevice addr => { noEffects s with spawnedConnect := [addr] }
  | .disconnectDevice addr => { noEffects s with spawnedDisconnect := [addr] }
  | .cancelConnect addr => { noEffects s with spawnedCancel := [addr] }
  | .setEnabled enabled =>
      if p.setPoweredOk then
        noEffects s
      else
        match find_adapter_idx p.rfkillEntries p.adapterName with
        | .error e => { noEffects s with err := some e }
        | .ok idx =>
            match rfkill_set_enabled p.rfkillWriteOk idx enabled with
            | .error e => { noEffects s with err := some e }
            | .ok _bytes =>
                if enabled then
                  { noEffects { s with device_handles := p.enumHandles } with
                    events := [.deviceMap p.enumDeviceMap],
                    spawnedListeners := p.enumHandles }
                else
                  { noEffects { s with device_handles := [] } with
                    aborted := s.device_handles.map (fun q => q.2) }
  | .confirmCode addr confirm =>
      match alistLookup s.confirmation_senders addr with
      | some sender =>
          { noEffects
              { s with confirmation_senders := alistRemove s.confirmation_senders addr } with
            fulfilled := [(sender, confirm)] }
      | none => noEffects s

/-- `MAX_TRIES` from `connect_with_retry`. -/
def MAX_TRIES : Nat := 5

/-- The loop body of `connect_with_retry` (worker.rs lines 310-331).
`connectOk n` tells whether the n-th `device.connect()` call succeeds.
Returns (number of attempts made, sleep durations in ms in order, whether
the connect eventually succeeded).  The fuel argument only bounds the
recursion; `MAX_TRIES` fuel is enough because the loop bails once
`attempt >= MAX_TRIES`. -/
def connect_with_retry_go (connectOk : Nat → Bool) (fuel attempt backoff : Nat) :
    Nat × List Nat × Bool :=
  match fuel with
  | 0 => (attempt, [], false)
  | f + 1 =>
      let att := attempt + 1
      if connectOk att then (att, [], true)
      else if MAX_TRIES ≤ att then (att, [], false)
      else
        let next := connect_with_retry_go connectOk f att (min (backoff * 2) 10000)
        (next.1, backoff :: next.2.1, next.2.2)

/-- `connect_with_retry` (worker.rs lines 310-331): attempt counter starts
at 0, backoff starts at 500 ms, doubles after each sleep with a 10000 ms
cap. -/
def connect_with_retry (connectOk : Nat → Bool) : Nat × List Nat × Bool :=
  connect_with_retry_go connectOk MAX_TRIES 0 500

/-- The task spawned by `WorkerRequest::ConnectDevice` (worker.rs lines
179-188): on a connect error after retries it sends `ConnectFailed` with
the device's address; on success it sends nothing. -/
def connect_task_events (connectOk : Nat → Bool) (addr : Address) : List WorkerEvent :=
  if (connect_with_retry connectOk).2.2 then [] else [.connectFailed addr]

/-- One ready item of the `tokio::select!` in `BluetoothWorker::listen`
(worker.rs lines 241-262).  A `discoveryEv` item can only be ready while
`discovery_events` holds a stream. -/
inductive LoopItem where
  | request (r : WorkerRequest)
  | adapterEv (e : AdapterEvent)
  | discoveryEv (e : AdapterEvent)
  | deviceUpd (addr : Address) (u : DeviceUpdate)
  | agentEv (e : AgentEvent)
deriving DecidableEq, Repr

/-- `BluetoothWorker::listen` (worker.rs lines 241-262): dispatch one ready
item; request and adapter/discovery handler failures get a context prefix
(`.context(...)`); a device update is forwarded directly as an event. -/
def listen (p : Platform) (s : BluetoothWorker) (item : LoopItem) : StepOut :=
  match item with
  | .request r =>
      let out := handle_request p s r
      { out with err := out.err.map (fun e => "Could not handle request: " ++ e) }
  | .adapterEv e =>
      let out := handle_adapter_event p s e
      { out with err := out.err.map (fun e => "Could not handle adapter event: " ++ e) }
  | .discoveryEv e =>
      let out := handle_adapter_event p s e
      { out with err := out.err.map (fun e => "Could not handle discovery event: " ++ e) }
  | .deviceUpd a u => { noEffects s with events := [.deviceUpdate a u] }
  | .agentEv e => handle_agent_event s e

/-- `BluetoothWorker::run` (worker.rs lines 104-111) over a finite trace of
ready items: on the first iteration whose handler returns an error, send a
`WorkerEvent::Error` and return, leaving the remaining items unprocessed.
Result: final state, all emitted events, and whether the loop terminated
on an error. -/
def run (p : Platform) (s : BluetoothWorker) (items : List LoopItem) :
    BluetoothWorker × List WorkerEvent × Bool :=
  match items with
  | [] => (s, [], false)
  | item :: rest =>
      let out := listen p s item
      match out.err with
      | some e => (out.state, out.events ++ [.error e], true)
      | none =>
          let next := run p out.state rest
          (next.1, out.events ++ next.2.1, next.2.2)

/-- Relevant mutable state of `CosmicBluetoothApplet` (app.rs): the device
cache, the enabled flag, whether the worker channel has been received
(`worker_tx`), and whether the popup is open. -/
structure CosmicBluetoothApplet where
  device_map : Option (List (Address × BluetoothDevice))
  enabled : Bool
  hasWorkerTx : Bool
  popupOpen : Bool
deriving DecidableEq, Repr

/-- Apply `f` to the record at `addr`, as the app's `get_mut` pattern does;
a missing address only logs a warning and changes nothing. -/
def mapDevice (m : List (Address × BluetoothDevice)) (addr : Address)
    (f : BluetoothDevice → BluetoothDevice) : List (Address × BluetoothDevice) :=
  m.map (fun q => if q.1 == addr then (q.1, f q.2) else q)

/-- `CosmicBluetoothApplet::handle_worker_event` (app.rs lines 60-121).
Besides the new state it returns the worker requests the handler sends
(`SetDiscovery(true)` when the adapter comes up while the popup is open).
The `Error` branch calls `std::process::exit(1)`; process exit is outside
the model, the state is returned unchanged. -/
def handle_worker_event (s : CosmicBluetoothApplet) (e : WorkerEvent) :
    CosmicBluetoothApplet × List WorkerRequest :=
  match e with
  | .ready powered => ({ s with hasWorkerTx := true, enabled := powered }, [])
  | .deviceMap m => ({ s with device_map := some m }, [])
  | .error _msg => (s, [])
  | .deviceAdded d =>
      ({ s with device_map := s.device_map.map (fun m => alistInsert m d.address d) }, [])
  | .deviceRemoved addr =>
      ({ s with device_map := s.device_map.map (fun m => alistRemove m addr) }, [])
  | .enabled b =>
      ({ s with enabled := b },
       if b && s.popupOpen && s.hasWorkerTx then [.setDiscovery true] else [])
  | .deviceUpdate addr u =>
      ({ s with device_map :=
          s.device_map.map (fun m => mapDevice m addr (fun d => handle_device_updates d u)) }, [])
  | .connectFailed addr =>
      ({ s with device_map :=
          s.device_map.map (fun m =>
            mapDevice m addr (fun d => { d with status := ConnectionStatus.disconnected })) }, [])
  | .confirmCode code addr =>
      ({ s with device_map :=
          s.device_map.map (fun m =>
            mapDevice m addr (fun d => { d with display_code := some code })) }, [])

/-- The `Message::ConfirmCode` branch of `CosmicBluetoothApplet::update`
(app.rs lines 248-252): forward the answer to the worker; the applet state
(in particular every device's `display_code`) is not touched. -/
def update_confirm_code (s : CosmicBluetoothApplet) (addr : Address) (confirm : Bool) :
    CosmicBluetoothApplet × List WorkerRequest :=
  if s.hasWorkerTx then (s, [.confirmCode addr confirm]) else (s, [])

/-- `ReqError::Rejected` from bluer, as used in agent.rs. -/
inductive ReqError where
  | rejected
deriving DecidableEq, Repr

/-- The tail of `request_confirmation` (agent.rs lines 26-37): the agent
callback awaits the oneshot receiver; `received = some b` models the
acceptor fulfilled with `b`, `none` models the acceptor dropped.  Only
`Ok(true)` reports acceptance; everything else reports `Rejected`. -/
def request_confirmation_result (received : Option Bool) : Except ReqError Unit :=
  match received with
  | some true => .ok ()
  | _ => .error .rejected

/-! Concrete fixtures used by witnesses and counterexamples. -/

/-- A device record in the `Connecting` state at address 1. -/
def devHeadphones : BluetoothDevice :=
  { icon := "audio-headphones-symbolic", name := "Headphones",
    status := ConnectionStatus.connecting, battery_percent := none,
    is_paired := false, address := 1, display_code := none }

/-- A baseline platform oracle: no devices, powered off, high-level
set-powered succeeds, empty rfkill directory. -/
def platform0 : Platform :=
  { deviceAddresses := [], deviceName := fun _ => none,
    deviceRecord := fun _ => devHeadphones, freshHandle := 10, freshStream := 7,
    isPowered := false, setPoweredOk := true, rfkillEntries := [],
    adapterName := "hci0", rfkillWriteOk := true,
    enumDeviceMap := [], enumHandles := [] }

/-- Worker state with no handles, no pending confirmations, no discovery. -/
def worker0 : BluetoothWorker :=
  { discovery_events := none, device_handles := [], confirmation_senders := [] }

/-! Association-list lemmas (HashMap get/insert/remove/get_mut facts). -/

theorem alistLookup_insert_self {α : Type} (l : List (Address × α)) (a : Address) (v : α) :
    alistLookup (alistInsert l a v) a = some v := by
  simp [alistLookup, alistInsert, List.find?]

theorem alistLookup_remove_self {α : Type} (l : List (Address × α)) (a : Address) :
    alistLookup (alistRemove l a) a = none := by
  unfold alistLookup alistRemove
  rw [Option.map_eq_none']
  rw [List.find?_eq_none]
  intro x hx
  rw [List.mem_filter] at hx
  simpa using hx.2

theorem alistLookup_mapDevice_self (m : List (Address × BluetoothDevice)) (a : Address)
    (f : BluetoothDevice → BluetoothDevice) :
    alistLookup (mapDevice m a f) a = (alistLookup m a).map f := by
  induction m with
  | nil => rfl
  | cons x xs ih =>
      by_cases h : x.1 = a
      · simp [mapDevice, alistLookup, List.find?, h]
      · have hb : (x.1 == a) = false := by simp [h]
        simp [mapDevice, alistLookup, List.find?, hb] at ih ⊢
        exact ih

/-- Applet state holding the single device record at address 1. -/
def app1 : CosmicBluetoothApplet :=
  { device_map := some [(1, devHeadphones)], enabled := true,
    hasWorkerTx := true, popupOpen := false }

/-- Worker state owning one listener handle (address 1, handle id 10). -/
def workerH : BluetoothWorker :=
  { worker0 with device_handles := [(1, 10)] }

/-- Worker state with a pending confirmation acceptor (address 1, id 42). -/
def workerPend : BluetoothWorker :=
  { worker0 with confirmation_senders := [(1, 42)] }

/-- Platform whose rfkill directory resolves the adapter to index 3, with
the high-level set-powered call failing. -/
def rfEntryBt : RfkillEntry :=
  { typContent := some "bluetooth", nameContent := some "hci0", indexRead := some 3 }

def platformRf : Platform :=
  { platform0 with setPoweredOk := false, rfkillEntries := [rfEntryBt] }

/-- Platform that resolves a name for every device address. -/
def platformName : Platform :=
  { platform0 with deviceAddresses := [1], deviceName := fun _ => some "Headphones" }

/-! Claim theorems. -/

/-- C5: the encoded raw control record is always exactly 8 bytes with no
padding; for enabling adapter index 3 it is exactly
`03 00 00 00 02 02 00 00` (index little-endian, type 2, op 2, soft 0,
hard 0); for disabling, the soft byte is 1. -/
theorem rfkill_event_bytes_exact :
    (∀ idx enable, (rfkillEventBytes idx enable).length = 8) ∧
    rfkillEventBytes 3 true = [3, 0, 0, 0, 2, 2, 0, 0] ∧
    rfkillEventBytes 3 false = [3, 0, 0, 0, 2, 2, 1, 0] := by
  refine ⟨fun idx enable => ?_, by decide, by decide⟩
  simp [rfkillEventBytes, u32le]

/-- C1 counterexample: with a connect operation failing every attempt, the
retry loop sleeps only four times — 500, 1000, 2000, 4000 ms — not the
five delays (ending in 8000 ms) the claim states: the loop bails out after
the fifth failed attempt before any fifth sleep. -/
theorem connect_retry_sleeps_counterexample :
    (connect_with_retry (fun _ => false)).2.1 = [500, 1000, 2000, 4000] ∧
    (connect_with_retry (fun _ => false)).2.1 ≠ [500, 1000, 2000, 4000, 8000] := by
  decide

/-- C1 amended: with a connect operation failing every attempt, exactly 5
attempts occur with sleeps of 500, 1000, 2000, 4000 ms between consecutive
attempts (each next delay is the double of the previous, capped at
10000 ms, and no delay exceeds 10000 ms; no sleep follows the final
attempt), the spawned task then emits a connect-failed event carrying the
device's address, and handling that event forces the device's record from
`Connecting` to `Disconnected`. -/
theorem connect_retry_all_fail (addr : Address) (s : CosmicBluetoothApplet)
    (m : List (Address × BluetoothDevice)) (d : BluetoothDevice)
    (hm : s.device_map = some m) (hd : alistLookup m addr = some d) :
    (connect_with_retry (fun _ => false)).1 = 5 ∧
    (connect_with_retry (fun _ => false)).2.1 = [500, 1000, 2000, 4000] ∧
    List.Chain' (fun x y => y = min (x * 2) 10000) (connect_with_retry (fun _ => false)).2.1 ∧
    (∀ dly ∈ (connect_with_retry (fun _ => false)).2.1, dly ≤ 10000) ∧
    (connect_with_retry (fun _ => false)).2.2 = false ∧
    connect_task_events (fun _ => false) addr = [.connectFailed addr] ∧
    alistLookup ((handle_worker_event s (.connectFailed addr)).1.device_map.getD []) addr =
      some { d with status := ConnectionStatus.disconnected } := by
  refine ⟨by decide, by decide, ?_, by decide, by decide, rfl, ?_⟩
  · rw [show (connect_with_retry (fun _ => false)).2.1 = [500, 1000, 2000, 4000] from by decide]
    exact List.Chain'.cons (by decide)
      (List.Chain'.cons (by decide) (List.Chain'.cons (by decide) (List.chain'_singleton 4000)))
  simp only [handle_worker_event, hm, Option.map_some', Option.getD_some]
  rw [alistLookup_mapDevice_self, hd]
  rfl

/-- C1 witness: the amended retry/transition behaviour at the concrete
applet state `app1` (address 1 in `Connecting`). -/
theorem connect_retry_all_fail_witness :
    connect_task_events (fun _ => false) 1 = [.connectFailed 1] ∧
    alistLookup ((handle_worker_event app1 (.connectFailed 1)).1.device_map.getD []) 1 =
      some { devHeadphones with status := ConnectionStatus.disconnected } :=
  ⟨(connect_retry_all_fail 1 app1 [(1, devHeadphones)] devHeadphones rfl (by decide)).2.2.2.2.2.1,
   (connect_retry_all_fail 1 app1 [(1, devHeadphones)] devHeadphones rfl (by decide)).2.2.2.2.2.2⟩

/-- C2 counterexample: a device-removed notification for address 1, absent
from the platform's device list but with no listener handle stored, emits
no device-removed event at all (the claim demands exactly one) and changes
nothing. -/
theorem device_removed_no_handle_counterexample :
    ¬ (1 ∈ platform0.deviceAddresses) ∧
    (handle_adapter_event platform0 worker0 (.deviceRemoved 1)).events = [] ∧
    (handle_adapter_event platform0 worker0 (.deviceRemoved 1)).aborted = [] ∧
    (handle_adapter_event platform0 worker0 (.deviceRemoved 1)).state = worker0 := by
  decide

/-- C2 amended: a removal notification for an address still present in the
platform's device list mutates nothing and emits nothing; for an absent
address it removes and aborts the stored listener handle and emits exactly
one device-removed event when such a handle exists, and is a complete
no-op when no handle is stored. -/
theorem device_removed_disambiguation (p : Platform) (s : BluetoothWorker) (addr : Address) :
    (addr ∈ p.deviceAddresses →
      handle_adapter_event p s (.deviceRemoved addr) = noEffects s) ∧
    (addr ∉ p.deviceAddresses →
      (∀ h, alistLookup s.device_handles addr = some h →
        handle_adapter_event p s (.deviceRemoved addr) =
          { noEffects { s with device_handles := alistRemove s.device_handles addr } with
            events := [.deviceRemoved addr], aborted := [h] }) ∧
      (alistLookup s.device_handles addr = none →
        handle_adapter_event p s (.deviceRemoved addr) = noEffects s)) := by
  refine ⟨fun hmem => ?_, fun hmem => ⟨fun h hh => ?_, fun hn => ?_⟩⟩
  · simp [handle_adapter_event, List.elem_eq_mem, hmem]
  · simp [handle_adapter_event, List.elem_eq_mem, hmem, hh]
  · simp [handle_adapter_event, List.elem_eq_mem, hmem, hn]

/-- C2 witness: the amended behaviour at address 1 with a stored handle
(id 10) and an empty platform device list. -/
theorem device_removed_disambiguation_witness :
    handle_adapter_event platform0 workerH (.deviceRemoved 1) =
      { noEffects { workerH with device_handles := alistRemove workerH.device_handles 1 } with
        events := [.deviceRemoved 1], aborted := [10] } :=
  ((device_removed_disambiguation platform0 workerH 1).2 (by decide)).1 10 (by decide)

/-- C3 counterexample: a disable request that succeeds through the
high-level set-powered call leaves the listener-handle table untouched and
aborts nothing — the tear-down the claim asserts happens only on the raw
fallback path. -/
theorem disable_highlevel_counterexample :
    platform0.setPoweredOk = true ∧
    (handle_request platform0 workerH (.setEnabled false)).state.device_handles = [(1, 10)] ∧
    (handle_request platform0 workerH (.setEnabled false)).aborted = [] := by
  decide

/-- C3 amended: a disable through the high-level set-powered call changes
nothing at all (listeners keep running); only a disable through the raw
fallback path aborts every active listener and empties the handle table,
while emitting no event (the cached device records are untouched) and
leaving the discovery stream and pending confirmations unchanged. -/
theorem disable_paths (p : Platform) (s : BluetoothWorker) :
    (p.setPoweredOk = true →
      handle_request p s (.setEnabled false) = noEffects s) ∧
    (p.setPoweredOk = false →
      ∀ idx, find_adapter_idx p.rfkillEntries p.adapterName = .ok idx →
      p.rfkillWriteOk = true →
      (handle_request p s (.setEnabled false)).aborted = s.device_handles.map (fun q => q.2) ∧
      (handle_request p s (.setEnabled false)).state.device_handles = [] ∧
      (handle_request p s (.setEnabled false)).events = [] ∧
      (handle_request p s (.setEnabled false)).state.discovery_events = s.discovery_events ∧
      (handle_request p s (.setEnabled false)).state.confirmation_senders =
        s.confirmation_senders) := by
  refine ⟨fun hp => ?_, fun hp idx hidx hw => ?_⟩
  · simp [handle_request, hp]
  · simp [handle_request, hp, hidx, rfkill_set_enabled, hw, noEffects]

/-- C3 witness: the raw-fallback disable at the concrete state `workerH`
(one handle, id 10) and platform `platformRf`. -/
theorem disable_paths_witness :
    (handle_request platformRf workerH (.setEnabled false)).aborted = [10] ∧
    (handle_request platformRf workerH (.setEnabled false)).state.device_handles = [] :=
  ⟨by
    have h := (disable_paths platformRf workerH).2 rfl 3 rfl rfl
    simpa using h.1,
   ((disable_paths platformRf workerH).2 rfl 3 rfl rfl).2.1⟩

/-- C4 counterexample: when the rfkill directory has no matching entry, a
SetEnabled request makes the loop emit a single Error event and terminate;
the following SetDiscovery(false) request is never processed (the stored
discovery stream survives untouched), refuting the claim that the loop
keeps processing subsequent events. -/
theorem rfkill_fail_loop_counterexample :
    run { platform0 with setPoweredOk := false } { worker0 with discovery_events := some 7 }
      [LoopItem.request (.setEnabled true), LoopItem.request (.setDiscovery false)] =
    ({ worker0 with discovery_events := some 7 },
     [.error "Could not handle request: No rfkill bluetooth device with name hci0"], true) := by
  decide

/-- C4 amended: when the high-level set-powered call fails and the raw
fallback cannot resolve an adapter index, the descriptive error propagates
out of the request handler; the event loop emits one Error event carrying
it and terminates, leaving all remaining queued items unprocessed and the
state unchanged. -/
theorem rfkill_fail_fatal (p : Platform) (s : BluetoothWorker) (b : Bool)
    (rest : List LoopItem) (msg : String)
    (hp : p.setPoweredOk = false)
    (hfind : find_adapter_idx p.rfkillEntries p.adapterName = .error msg) :
    run p s (.request (.setEnabled b) :: rest) =
      (s, [.error ("Could not handle request: " ++ msg)], true) := by
  simp [run, listen, handle_request, hp, hfind, noEffects]

/-- C4 witness: the fatal rfkill-resolution failure at a concrete state
and queue. -/
theorem rfkill_fail_fatal_witness :
    run { platform0 with setPoweredOk := false } worker0
      [LoopItem.request (.setEnabled true), LoopItem.request (.setDiscovery true)] =
      (worker0,
       [.error ("Could not handle request: " ++ "No rfkill bluetooth device with name hci0")],
       true) :=
  rfkill_fail_fatal { platform0 with setPoweredOk := false } worker0 true
    [LoopItem.request (.setDiscovery true)] "No rfkill bluetooth device with name hci0" rfl rfl

/-- C6: a device-added notification for an address that already has a
listener handle is a no-op (no state change, no spawn, no event); one for
a device with no resolvable name is likewise a no-op; in particular,
applying the device-added handler a second time after a successful add
(with any platform answers) is a no-op. -/
theorem device_added_idempotent (p p2 : Platform) (s : BluetoothWorker) (addr : Address) :
    ((alistLookup s.device_handles addr).isSome = true →
      handle_adapter_event p s (.deviceAdded addr) = noEffects s) ∧
    (p.deviceName addr = none →
      handle_adapter_event p s (.deviceAdded addr) = noEffects s) ∧
    (∀ nm, p.deviceName addr = some nm →
      handle_adapter_event p2 (handle_adapter_event p s (.deviceAdded addr)).state
        (.deviceAdded addr) =
        noEffects (handle_adapter_event p s (.deviceAdded addr)).state) := by
  have hdup : ∀ (q : Platform) (t : BluetoothWorker),
      (alistLookup t.device_handles addr).isSome = true →
      handle_adapter_event q t (.deviceAdded addr) = noEffects t := by
    intro q t ht
    simp [handle_adapter_event, ht]
  refine ⟨hdup p s, fun hn => ?_, fun nm hnm => ?_⟩
  · simp [handle_adapter_event, hn]
  · by_cases hl : (alistLookup s.device_handles addr).isSome = true
    · rw [hdup p s hl]
      exact hdup p2 s hl
    · have hstate : (handle_adapter_event p s (.deviceAdded addr)).state =
          { s with device_handles := alistInsert s.device_handles addr p.freshHandle } := by
        simp [handle_adapter_event, hnm, hl, noEffects]
      refine hdup p2 _ ?_
      rw [hstate]
      simp [alistLookup_insert_self]

/-- C6 witness: a second device-added notification for address 1 right
after a successful add is a no-op. -/
theorem device_added_idempotent_witness :
    handle_adapter_event platformName
      (handle_adapter_event platformName worker0 (.deviceAdded 1)).state (.deviceAdded 1) =
      noEffects (handle_adapter_event platformName worker0 (.deviceAdded 1)).state :=
  (device_added_idempotent platformName platformName worker0 1).2.2 "Headphones" rfl

/-- C7: a challenge for an address stores its acceptor; a subsequent
accept answer removes the stored acceptor and fulfills it with true, upon
which the agent callback reports acceptance; a fulfilled-false or dropped
acceptor makes the callback report rejection; and an answer for an address
with no stored acceptor changes no state and is silently ignored. -/
theorem confirm_code_roundtrip (p : Platform) (s : BluetoothWorker)
    (pk : Nat) (addr : Address) (acc : AcceptorId) (confirm : Bool) :
    alistLookup (handle_agent_event s
        (.requestConfirmation pk addr acc)).state.confirmation_senders addr = some acc ∧
    (handle_request p (handle_agent_event s (.requestConfirmation pk addr acc)).state
        (.confirmCode addr true)).fulfilled = [(acc, true)] ∧
    alistLookup (handle_request p
        (handle_agent_event s (.requestConfirmation pk addr acc)).state
        (.confirmCode addr true)).state.confirmation_senders addr = none ∧
    request_confirmation_result (some true) = .ok () ∧
    request_confirmation_result (some false) = .error .rejected ∧
    request_confirmation_result none = .error .rejected ∧
    (alistLookup s.confirmation_senders addr = none →
      handle_request p s (.confirmCode addr confirm) = noEffects s) := by
  have hstored : alistLookup (handle_agent_event s
      (.requestConfirmation pk addr acc)).state.confirmation_senders addr = some acc := by
    simp [handle_agent_event, noEffects, alistLookup_insert_self]
  refine ⟨hstored, ?_, ?_, rfl, rfl, rfl, fun hn => ?_⟩
  · simp [handle_request, hstored]
  · simp [handle_request, hstored, noEffects, alistLookup_remove_self]
  · simp [handle_request, hn]

/-- C7 witness: the round trip at address 1 with acceptor id 42, and the
ignored answer on a state with no stored acceptor. -/
theorem confirm_code_roundtrip_witness :
    (handle_request platform0
        (handle_agent_event worker0 (.requestConfirmation 123456 1 42)).state
        (.confirmCode 1 true)).fulfilled = [(42, true)] ∧
    handle_request platform0 worker0 (.confirmCode 1 false) = noEffects worker0 :=
  ⟨(confirm_code_roundtrip platform0 worker0 123456 1 42 false).2.1,
   (confirm_code_roundtrip platform0 worker0 123456 1 42 false).2.2.2.2.2.2 rfl⟩

/-- C10: a second challenge for an address with an unanswered stored
acceptor replaces the old acceptor; the displaced acceptor is dropped,
the suspended agent callback then observes a closed channel and reports
rejection, and a later answer fulfills only the newest acceptor. -/
theorem challenge_replaces_acceptor (p : Platform) (s : BluetoothWorker)
    (pk : Nat) (addr : Address) (acc1 acc2 : AcceptorId)
    (hold : alistLookup s.confirmation_senders addr = some acc1) :
    alistLookup (handle_agent_event s
        (.requestConfirmation pk addr acc2)).state.confirmation_senders addr = some acc2 ∧
    (handle_agent_event s (.requestConfirmation pk addr acc2)).droppedAcceptors = [acc1] ∧
    request_confirmation_result none = .error .rejected ∧
    (handle_request p (handle_agent_event s (.requestConfirmation pk addr acc2)).state
        (.confirmCode addr true)).fulfilled = [(acc2, true)] := by
  have hstored : alistLookup (handle_agent_event s
      (.requestConfirmation pk addr acc2)).state.confirmation_senders addr = some acc2 := by
    simp [handle_agent_event, noEffects, alistLookup_insert_self]
  refine ⟨hstored, ?_, rfl, ?_⟩
  · simp [handle_agent_event, hold]
  · simp [handle_request, hstored]

/-- C10 witness: replacement of acceptor 42 by 43 at address 1. -/
theorem challenge_replaces_acceptor_witness :
    (handle_agent_event workerPend (.requestConfirmation 123456 1 43)).droppedAcceptors = [42] ∧
    (handle_request platform0
        (handle_agent_event workerPend (.requestConfirmation 123456 1 43)).state
        (.confirmCode 1 true)).fulfilled = [(43, true)] :=
  ⟨(challenge_replaces_acceptor platform0 workerPend 123456 1 42 43 (by decide)).2.1,
   (challenge_replaces_acceptor platform0 workerPend 123456 1 42 43 (by decide)).2.2.2⟩

/-- C9 counterexample: a SetDiscovery(true) request while the adapter is
not powered is not a no-op — it clears the previously active discovery
stream (some 5 becomes none). -/
theorem discovery_off_counterexample :
    platform0.isPowered = false ∧
    ({ worker0 with discovery_events := some 5 } : BluetoothWorker).discovery_events = some 5 ∧
    (handle_request platform0 { worker0 with discovery_events := some 5 }
      (.setDiscovery true)).state.discovery_events = none := by
  decide

/-- C9 amended: any SetDiscovery request whose flag-and-powered test fails
(in particular every request while unpowered) clears the stored discovery
stream — dropping any previously active one — creates no stream, emits no
event and changes nothing else; SetDiscovery(true) while powered installs
a fresh discovery stream, replacing any previous one. -/
theorem set_discovery_behavior (p : Platform) (s : BluetoothWorker) (v : Bool) :
    ((v && p.isPowered) = false →
      handle_request p s (.setDiscovery v) = noEffects { s with discovery_events := none }) ∧
    ((v && p.isPowered) = true →
      handle_request p s (.setDiscovery v) =
        noEffects { s with discovery_events := some p.freshStream }) := by
  refine ⟨fun hoff => ?_, fun hon => ?_⟩
  · simp [handle_request, hoff]
  · simp [handle_request, hon]

/-- C9 witness: SetDiscovery(true) while unpowered at a state with an
active stream drops the stream. -/
theorem set_discovery_behavior_witness :
    handle_request platform0 { worker0 with discovery_events := some 5 } (.setDiscovery true) =
      noEffects { { worker0 with discovery_events := some 5 } with discovery_events := none } :=
  (set_discovery_behavior platform0 { worker0 with discovery_events := some 5 } true).1 rfl

/-- C8 counterexample: a confirm-code event for address 1 sets the
record's display code; the caller's answer (`Message::ConfirmCode`) leaves
the applet state untouched and the worker emits no event while handling
the forwarded answer, so the display code is still present after the
challenge is answered — it does not return to absent. -/
theorem display_code_counterexample :
    (update_confirm_code (handle_worker_event app1 (.confirmCode "123456" 1)).1 1 true).1.device_map
      = some [(1, { devHeadphones with display_code := some "123456" })] ∧
    ((alistLookup ((update_confirm_code (handle_worker_event app1
        (.confirmCode "123456" 1)).1 1 true).1.device_map.getD []) 1).map
      (fun d => d.display_code)) = some (some "123456") ∧
    (handle_request platform0 workerPend (.confirmCode 1 true)).events = [] := by
  refine ⟨by decide, by decide, rfl⟩

/-- C8 amended: the pending display code is set when a confirm-code event
arrives, but answering the challenge does not clear it: the answer leaves
the applet state unchanged and the worker emits no event while consuming
the answer, so the code stays present until the device record is removed
or replaced. -/
theorem display_code_persists (s : CosmicBluetoothApplet) (addr : Address)
    (confirm : Bool) (code : String) (m : List (Address × BluetoothDevice))
    (d : BluetoothDevice) (p : Platform) (ws : BluetoothWorker) :
    (update_confirm_code s addr confirm).1 = s ∧
    (handle_request p ws (.confirmCode addr confirm)).events = [] ∧
    (s.device_map = some m → alistLookup m addr = some d →
      (handle_worker_event s (.confirmCode code addr)).1.device_map =
        some (mapDevice m addr (fun q => { q with display_code := some code })) ∧
      alistLookup (mapDevice m addr (fun q => { q with display_code := some code })) addr =
        some { d with display_code := some code }) := by
  refine ⟨?_, ?_, fun hm hd => ⟨?_, ?_⟩⟩
  · by_cases h : s.hasWorkerTx <;> simp [update_confirm_code, h]
  · match hl : alistLookup ws.confirmation_senders addr with
    | some acc => simp [handle_request, hl, noEffects]
    | none => simp [handle_request, hl, noEffects]
  · simp [handle_worker_event, hm]
  · rw [alistLookup_mapDevice_self, hd]
    rfl

/-- C8 witness: code persistence at the concrete applet state `app1`. -/
theorem display_code_persists_witness :
    (handle_worker_event app1 (.confirmCode "123456" 1)).1.device_map =
      some (mapDevice [(1, devHeadphones)] 1
        (fun q => { q with display_code := some "123456" })) ∧
    alistLookup (mapDevice [(1, devHeadphones)] 1
        (fun q => { q with display_code := some "123456" })) 1 =
      some { devHeadphones with display_code := some "123456" } :=
  (display_code_persists app1 1 true "123456" [(1, devHeadphones)] devHeadphones
    platform0 worker0).2.2 rfl (by decide)

end CosmicBluetooth
